import Mathlib

/-!
Verification of the Modbus-TCP server (`src/modbus_server.c`).

The C program delegates all Modbus protocol work (framing, dispatch,
exception generation, register storage) to the external libmodbus library
(`modbus_receive` / `modbus_reply` / `modbus_mapping_new`); the repository
itself only contributes the glue (startup, accept loop, per-client loop).
Accordingly this development has two parts:

1. a protocol core modelled from the specification's own reconstruction of
   that outsourced logic (Frame Codec, Request Dispatcher, Register Store,
   Connection Handler of spec sections 3-4 and 7);
2. a direct embedding of the glue code of `modbus_server.c`
   (`handle_client_request`, the accept/serve loops of `main`, the startup
   sequence, `init_modbus_mapping`).
-/

/-! ## Register store (data model) -/

/-- Modelled from the spec: the Register Store of section 3, owned in the C
program by libmodbus's `modbus_mapping_t` (not part of this repository).
Four independent, fixed-size, zero-indexed address spaces: coils (bits,
read/write), discrete inputs (bits, read-only), holding registers (16-bit,
read/write), input registers (16-bit, read-only). -/
structure RegisterStore where
  coils : List Bool
  discreteInputs : List Bool
  holdingRegs : List Nat
  inputRegs : List Nat
deriving DecidableEq

/-- Read `count` values starting at `start` from one address space
(spec section 4.3: `read(space, start, count)`); the bounds check is done
by the dispatcher. -/
def readSeq {α : Type} (space : List α) (start count : Nat) : List α :=
  (space.drop start).take count

/-- Write the values one after another starting at index `start`
(spec section 4.3: `write(space, start, values)`); the bounds check is done
by the dispatcher. -/
def writeSeq {α : Type} (space : List α) (start : Nat) (values : List α) : List α :=
  match values with
  | [] => space
  | v :: vs => writeSeq (space.set start v) (start + 1) vs

/-! ## MBAP header and frame codec -/

/-- Modelled from the spec: the MBAP header of section 3, parsed in the C
program inside libmodbus's `modbus_receive` (not part of this repository). -/
structure MBAPHeader where
  transactionId : Nat
  protocolId : Nat
  length : Nat
  unitId : Nat
deriving DecidableEq

/-- The decode error of the Frame Codec (spec section 4.1). -/
inductive MalformedFrame where
  | malformedFrame
deriving DecidableEq

/-- Big-endian pairing of two bytes into a 16-bit value. -/
def bytesToU16 (hi lo : Nat) : Nat := hi * 256 + lo

/-- Big-endian split of a 16-bit value into two bytes. -/
def u16ToBytes (v : Nat) : List Nat := [v / 256 % 256, v % 256]

/-- Modelled from the spec: `decode(bytes)` of the Frame Codec (section 4.1),
performed in the C program inside libmodbus's `modbus_receive` (not part of
this repository). Fails if fewer than 7 bytes are available, if the protocol
identifier is nonzero, or if the `length` field disagrees with the bytes
actually present (`length` counts the unit-id byte plus the PDU). -/
def decode (bytes : List Nat) : Except MalformedFrame (MBAPHeader × List Nat) :=
  if bytes.length < 7 then .error .malformedFrame
  else if bytesToU16 (bytes.getD 2 0) (bytes.getD 3 0) ≠ 0 then .error .malformedFrame
  else if bytesToU16 (bytes.getD 4 0) (bytes.getD 5 0) ≠ bytes.length - 6 then
    .error .malformedFrame
  else
    .ok ({ transactionId := bytesToU16 (bytes.getD 0 0) (bytes.getD 1 0)
           protocolId := bytesToU16 (bytes.getD 2 0) (bytes.getD 3 0)
           length := bytesToU16 (bytes.getD 4 0) (bytes.getD 5 0)
           unitId := bytes.getD 6 0 }, bytes.drop 7)

/-- Modelled from the spec: `encode(header, PDU)` of the Frame Codec
(section 4.1). Recomputes `length` from the PDU's actual size (plus the
unit-id byte), writes protocol identifier 0, and copies the transaction
identifier and unit identifier unchanged from the originating request. -/
def encodeFrame (h : MBAPHeader) (pdu : List Nat) : List Nat :=
  u16ToBytes h.transactionId ++ u16ToBytes 0 ++ u16ToBytes (pdu.length + 1)
    ++ [h.unitId] ++ pdu

/-! ## PDU, requests and replies -/

/-- Modelled from the spec: the decoded PDUs of the function codes in the
dispatcher table of section 4.2, parsed in the C program inside libmodbus's
`modbus_reply` (not part of this repository). `unsupported` carries any
function code outside the supported set. -/
inductive Request where
  | readCoils (start count : Nat)
  | readDiscreteInputs (start count : Nat)
  | readHoldingRegisters (start count : Nat)
  | readInputRegisters (start count : Nat)
  | writeSingleCoil (addr value : Nat)
  | writeSingleRegister (addr value : Nat)
  | writeMultipleCoils (start count byteCount : Nat) (values : List Bool)
  | writeMultipleRegisters (start count byteCount : Nat) (values : List Nat)
  | unsupported (functionCode : Nat)
deriving DecidableEq

/-- Modelled from the spec: a reply PDU of section 4.2 — either a normal
response or an exception code. -/
inductive Reply where
  | readBits (values : List Bool)
  | readRegisters (values : List Nat)
  | writeSingleAck (addr value : Nat)
  | writeMultipleAck (start count : Nat)
  | exception (code : Nat)
deriving DecidableEq

/-- Whether a reply is an exception. -/
def Reply.isException : Reply → Bool
  | .exception _ => true
  | _ => false

/-- Read a big-endian 16-bit value at byte offset `i` of a payload. -/
def u16At (p : List Nat) (i : Nat) : Nat := bytesToU16 (p.getD i 0) (p.getD (i + 1) 0)

/-- Modelled from the spec: parsing of a PDU's function code and
function-specific payload (section 3), performed in the C program inside
libmodbus's `modbus_reply` (not part of this repository). The first byte is
the function code; operands are big-endian. For 0x0F the coil values are
unpacked least-significant-bit first; for 0x10 the register values are
16-bit big-endian pairs. -/
def parsePDU (pdu : List Nat) : Request :=
  let fc := pdu.getD 0 0
  let p := pdu.drop 1
  if fc = 1 then .readCoils (u16At p 0) (u16At p 2)
  else if fc = 2 then .readDiscreteInputs (u16At p 0) (u16At p 2)
  else if fc = 3 then .readHoldingRegisters (u16At p 0) (u16At p 2)
  else if fc = 4 then .readInputRegisters (u16At p 0) (u16At p 2)
  else if fc = 5 then .writeSingleCoil (u16At p 0) (u16At p 2)
  else if fc = 6 then .writeSingleRegister (u16At p 0) (u16At p 2)
  else if fc = 15 then
    .writeMultipleCoils (u16At p 0) (u16At p 2) (p.getD 4 0)
      ((List.range (u16At p 2)).map (fun i => (p.getD (5 + i / 8) 0) / 2 ^ (i % 8) % 2 == 1))
  else if fc = 16 then
    .writeMultipleRegisters (u16At p 0) (u16At p 2) (p.getD 4 0)
      ((List.range (u16At p 2)).map (fun i => u16At p (5 + 2 * i)))
  else .unsupported fc

/-- Pack a list of bits into bytes, least-significant-bit first, as in the
read-coils reply encoding. -/
def packBits (bs : List Bool) : List Nat :=
  (List.range ((bs.length + 7) / 8)).map (fun i =>
    (List.range 8).foldl (fun acc j => acc + (if bs.getD (8 * i + j) false then 2 ^ j else 0)) 0)

/-- Modelled from the spec: `encode_exception` and the response encodings of
section 4.1/4.2, performed in the C program inside libmodbus's
`modbus_reply` (not part of this repository). An exception PDU is the
request's function code with the high bit set followed by the single
exception byte; read replies carry a byte count then the data; write
replies echo address/value or start/count. -/
def encodeReplyPDU (fc : Nat) (r : Reply) : List Nat :=
  match r with
  | .readBits vs => fc :: ((vs.length + 7) / 8) :: packBits vs
  | .readRegisters vs => fc :: (2 * vs.length) :: vs.flatMap u16ToBytes
  | .writeSingleAck a v => fc :: (u16ToBytes a ++ u16ToBytes v)
  | .writeMultipleAck st c => fc :: (u16ToBytes st ++ u16ToBytes c)
  | .exception c => [(fc + 128) % 256, c]

/-! ## Request dispatcher -/

/-- Modelled from the spec: the Request Dispatcher of section 4.2, performed
in the C program inside libmodbus's `modbus_reply` (not part of this
repository). Per the dispatcher table, each operation first checks that the
addressed range lies within its space (failure: Illegal Data Address, 0x02),
then the count/value constraints (failure: Illegal Data Value, 0x03): reads
allow counts in [1,2000] for bits and [1,125] for registers; Write Single
Coil requires the value 0x0000 or 0xFF00; the write-multiple operations
allow counts in [1,1968] (bits) and [1,123] (registers) — the Modbus
allowed ranges behind the spec's "count/value out of allowed range" — and
require the byte-count field to match the count. Unsupported function codes
yield Illegal Function (0x01). Exceptions leave the store unchanged: an
access outside `[0, size)` is never silently clamped. -/
def dispatch (r : Request) (s : RegisterStore) : Reply × RegisterStore :=
  match r with
  | .readCoils start count =>
    if start + count ≤ s.coils.length then
      if 1 ≤ count ∧ count ≤ 2000 then (.readBits (readSeq s.coils start count), s)
      else (.exception 3, s)
    else (.exception 2, s)
  | .readDiscreteInputs start count =>
    if start + count ≤ s.discreteInputs.length then
      if 1 ≤ count ∧ count ≤ 2000 then (.readBits (readSeq s.discreteInputs start count), s)
      else (.exception 3, s)
    else (.exception 2, s)
  | .readHoldingRegisters start count =>
    if start + count ≤ s.holdingRegs.length then
      if 1 ≤ count ∧ count ≤ 125 then (.readRegisters (readSeq s.holdingRegs start count), s)
      else (.exception 3, s)
    else (.exception 2, s)
  | .readInputRegisters start count =>
    if start + count ≤ s.inputRegs.length then
      if 1 ≤ count ∧ count ≤ 125 then (.readRegisters (readSeq s.inputRegs start count), s)
      else (.exception 3, s)
    else (.exception 2, s)
  | .writeSingleCoil addr v =>
    if addr + 1 ≤ s.coils.length then
      if v = 0 ∨ v = 65280 then
        (.writeSingleAck addr v, { s with coils := s.coils.set addr (v == 65280) })
      else (.exception 3, s)
    else (.exception 2, s)
  | .writeSingleRegister addr v =>
    if addr + 1 ≤ s.holdingRegs.length then
      (.writeSingleAck addr v, { s with holdingRegs := s.holdingRegs.set addr v })
    else (.exception 2, s)
  | .writeMultipleCoils start count byteCount values =>
    if start + count ≤ s.coils.length then
      if 1 ≤ count ∧ count ≤ 1968 then
        if byteCount = (count + 7) / 8 then
          (.writeMultipleAck start count, { s with coils := writeSeq s.coils start values })
        else (.exception 3, s)
      else (.exception 3, s)
    else (.exception 2, s)
  | .writeMultipleRegisters start count byteCount values =>
    if start + count ≤ s.holdingRegs.length then
      if 1 ≤ count ∧ count ≤ 123 then
        if byteCount = 2 * count then
          (.writeMultipleAck start count, { s with holdingRegs := writeSeq s.holdingRegs start values })
        else (.exception 3, s)
      else (.exception 3, s)
    else (.exception 2, s)
  | .unsupported _ => (.exception 1, s)

/-- The address span `(start, count)` a request asks for, when it addresses
a space (the single writes address one cell). -/
def reqSpan : Request → Option (Nat × Nat)
  | .readCoils start count => some (start, count)
  | .readDiscreteInputs start count => some (start, count)
  | .readHoldingRegisters start count => some (start, count)
  | .readInputRegisters start count => some (start, count)
  | .writeSingleCoil addr _ => some (addr, 1)
  | .writeSingleRegister addr _ => some (addr, 1)
  | .writeMultipleCoils start count _ _ => some (start, count)
  | .writeMultipleRegisters start count _ _ => some (start, count)
  | .unsupported _ => none

/-- The size of the space a request addresses in a given store. -/
def reqSpaceLen : Request → RegisterStore → Option Nat
  | .readCoils _ _, s => some s.coils.length
  | .readDiscreteInputs _ _, s => some s.discreteInputs.length
  | .readHoldingRegisters _ _, s => some s.holdingRegs.length
  | .readInputRegisters _ _, s => some s.inputRegs.length
  | .writeSingleCoil _ _, s => some s.coils.length
  | .writeSingleRegister _ _, s => some s.holdingRegs.length
  | .writeMultipleCoils _ _ _ _, s => some s.coils.length
  | .writeMultipleRegisters _ _ _ _, s => some s.holdingRegs.length
  | .unsupported _, _ => none

/-- Whether a request addresses one of the spaces the C program creates
empty (coils, discrete inputs, input registers): function codes 0x01, 0x02,
0x04, 0x05, 0x0F. -/
def targetsEmptySpace : Request → Bool
  | .readCoils _ _ => true
  | .readDiscreteInputs _ _ => true
  | .readInputRegisters _ _ => true
  | .writeSingleCoil _ _ => true
  | .writeMultipleCoils _ _ _ _ => true
  | _ => false

/-! ## Connection handler (one frame) -/

/-- Connection state of the per-connection state machine (spec section 4.4). -/
inductive ConnState where
  | connected
  | closed
deriving DecidableEq

/-- Modelled from the spec: one turn of the Connection Handler (section 4.4)
on a received frame, performed in the C program by libmodbus's
`modbus_receive`/`modbus_reply` pair (not part of this repository). A decode
failure is connection-fatal: the connection is closed and no reply is sent.
A well-framed request is parsed, dispatched against the store, and answered
(normal reply or exception PDU) on the still-open connection. -/
def handleFrame (bytes : List Nat) (s : RegisterStore) :
    ConnState × Option (List Nat) × RegisterStore :=
  match decode bytes with
  | .error _ => (.closed, none, s)
  | .ok (h, pduBytes) =>
    let (rep, s') := dispatch (parsePDU pduBytes) s
    (.connected, some (encodeFrame h (encodeReplyPDU (pduBytes.getD 0 0) rep)), s')

/-! ## Glue code of `modbus_server.c` -/

/-- The register map created by `init_modbus_mapping(reg_count)` in
`modbus_server.c`: the call `modbus_mapping_new(0, 0, reg_count, 0)`
allocates 0 coils, 0 discrete inputs, `reg_count` holding registers and
0 input registers, all values zero-initialized. -/
def init_modbus_mapping (reg_count : Nat) : RegisterStore :=
  { coils := List.replicate 0 false
    discreteInputs := List.replicate 0 false
    holdingRegs := List.replicate reg_count 0
    inputRegs := List.replicate 0 0 }

/-- The outcome of one `modbus_receive` call as seen by
`handle_client_request` in `modbus_server.c`: a received query (`rc > 0`),
a reset/closed connection (`rc == -1 && errno == ECONNRESET`, which is also
what a zero-byte read produces), or any other receive error (`rc == -1`). -/
inductive RecvResult where
  | received (query : List Nat)
  | connReset
  | recvError
deriving DecidableEq

/-- Whether a receive outcome delivered a query. -/
def RecvResult.isReceived : RecvResult → Bool
  | .received _ => true
  | _ => false

/-- The kind of message the C code prints for a receive outcome: nothing
special for a served request, an `[INFO]` debug line for a reset connection,
an `[ERROR]` line to stderr otherwise. -/
inductive LogKind where
  | silent
  | info
  | errorMsg
deriving DecidableEq

/-- `handle_client_request` of `modbus_server.c` (lines 165-180): on a
received query it replies (via `modbus_reply`) and returns the positive
reply length; on a reset/closed connection it returns -1 after an `[INFO]`
debug message; on any other receive error it returns -1 after an `[ERROR]`
message. The pair is (return code `rc`, log kind). -/
def handle_client_request : RecvResult → Int × LogKind
  | .received q => ((q.length : Int), .silent)
  | .connReset => (-1, .info)
  | .recvError => (-1, .errorMsg)

/-- Events observable in the lifetime of the server's `main` loop. -/
inductive TraceEv where
  | accept
  | handled
  | closed
  | acceptFailed
deriving DecidableEq

/-- The inner per-client loop of `main` (lines 281-284): it calls
`handle_client_request` repeatedly and breaks as soon as the return code is
-1; each non-breaking iteration serves one request. -/
def clientLoop : List RecvResult → List TraceEv
  | [] => []
  | e :: es =>
    if (handle_client_request e).1 = -1 then []
    else .handled :: clientLoop es

/-- The outcome of one `modbus_tcp_accept` call in `main`: a connection
whose lifetime will deliver the given receive outcomes, or a failed accept
(`client_socket == -1`). -/
inductive AcceptOutcome where
  | accepted (events : List RecvResult)
  | acceptError
deriving DecidableEq

/-- The accept loop of `main` (lines 269-285), run over a finite schedule of
accept outcomes: a failed accept logs an error and `continue`s; an accepted
client is served by the inner loop until it breaks, then the next client is
accepted. -/
def serverTrace : List AcceptOutcome → List TraceEv
  | [] => []
  | .accepted es :: rest => .accept :: (clientLoop es ++ .closed :: serverTrace rest)
  | .acceptError :: rest => .acceptFailed :: serverTrace rest

/-- A trace is serial when it is a sequence of failed accepts and complete
sessions, each session an `accept`, some `handled` requests, then a `closed`
— so a second client is never accepted before the current one is closed and
at no point are two clients being handled. -/
inductive SerialTrace : List TraceEv → Prop
  | nil : SerialTrace []
  | fail {t : List TraceEv} : SerialTrace t → SerialTrace (.acceptFailed :: t)
  | session {n : Nat} {t : List TraceEv} :
      SerialTrace t →
      SerialTrace (.accept :: (List.replicate n .handled ++ .closed :: t))

/-- Abstraction of the fallible startup steps of `main` (lines 249-265):
whether `modbus_new_tcp`, `modbus_mapping_new` and `modbus_tcp_listen`
succeed. -/
structure StartupEnv where
  newTcpOk : Bool
  mappingOk : Bool
  listenOk : Bool
deriving DecidableEq

/-- What `main` does after its startup sequence: exit with a status code, or
enter the accept loop serving clients from a register store. -/
inductive MainOutcome where
  | exitWith (code : Int)
  | serving (store : RegisterStore)
deriving DecidableEq

/-- The startup sequence of `main` (lines 249-265): if `modbus_new_tcp`
fails, return -1; else if `modbus_mapping_new` fails, free and return -1;
else if `modbus_tcp_listen` fails, free and return -1; otherwise enter the
accept loop with the freshly allocated register map. -/
def main_startup (env : StartupEnv) (reg_count : Nat) : MainOutcome :=
  if !env.newTcpOk then .exitWith (-1)
  else if !env.mappingOk then .exitWith (-1)
  else if !env.listenOk then .exitWith (-1)
  else .serving (init_modbus_mapping reg_count)

/-! ## Theorems -/

/-- Setting index `N` then reading one value at `N` yields the set value. -/
theorem readSeq_set_one {α : Type} (l : List α) (N : Nat) (v : α) (hN : N < l.length) :
    readSeq (l.set N v) N 1 = [v] := by
  induction l generalizing N with
  | nil => simp at hN
  | cons a t ih =>
    cases N with
    | zero => simp [readSeq]
    | succ n =>
      have hn : n < t.length := by simpa using hN
      simpa [readSeq, List.set] using ih n hn

/-- Claim C1: for every 16-bit value `v` and holding-register address `N`
within the holding-register space, Write Single Register(N, v) followed by
Read Holding Registers(start = N, count = 1) returns exactly `[v]`. -/
theorem write_then_read_holding_roundtrip (s : RegisterStore) (N v : Nat)
    (hN : N < s.holdingRegs.length) (_hv : v < 65536) :
    dispatch (.readHoldingRegisters N 1) ((dispatch (.writeSingleRegister N v) s).2)
      = (.readRegisters [v], (dispatch (.writeSingleRegister N v) s).2) := by
  have h1 : N + 1 ≤ s.holdingRegs.length := hN
  simp [dispatch, h1, List.length_set, readSeq_set_one _ _ _ hN]

/-- Witness for C1: the spec's scenario — on a store of 10 holding
registers, Write Single Register(3, 0x1234) then
Read Holding Registers(3, 1) returns [0x1234]. -/
theorem write_then_read_holding_roundtrip_witness :
    3 < (init_modbus_mapping 10).holdingRegs.length ∧ 0x1234 < 65536 ∧
    dispatch (.readHoldingRegisters 3 1)
        ((dispatch (.writeSingleRegister 3 0x1234) (init_modbus_mapping 10)).2)
      = (.readRegisters [0x1234],
        (dispatch (.writeSingleRegister 3 0x1234) (init_modbus_mapping 10)).2) :=
  ⟨by decide, by decide,
    write_then_read_holding_roundtrip (init_modbus_mapping 10) 3 0x1234 (by decide) (by decide)⟩

/-- A request whose span exceeds the addressed space's size is dispatched to
the exception Illegal Data Address (0x02) with the store unchanged. -/
theorem dispatch_out_of_range (r : Request) (s : RegisterStore) (start count sz : Nat)
    (hspan : reqSpan r = some (start, count))
    (hlen : reqSpaceLen r s = some sz)
    (hover : sz < start + count) :
    dispatch r s = (.exception 2, s) := by
  cases r <;>
    simp only [reqSpan, reqSpaceLen, Option.some.injEq, Prod.mk.injEq,
      reduceCtorEq] at hspan hlen <;>
    (try obtain ⟨rfl, rfl⟩ := hspan) <;>
    (try subst hlen) <;>
    simp only [dispatch] <;>
    rw [if_neg (by omega)]

/-- Claim C2: every request whose `start + count` exceeds the size of the
addressed space is answered with an exception PDU carrying Illegal Data
Address (0x02), the register store is unchanged (no silent clamping), and
the connection stays open. -/
theorem out_of_range_request_rejected (bytes : List Nat) (s : RegisterStore)
    (h : MBAPHeader) (pduB : List Nat) (start count sz : Nat)
    (hdec : decode bytes = .ok (h, pduB))
    (hspan : reqSpan (parsePDU pduB) = some (start, count))
    (hlen : reqSpaceLen (parsePDU pduB) s = some sz)
    (hover : sz < start + count) :
    handleFrame bytes s
      = (.connected, some (encodeFrame h [(pduB.getD 0 0 + 128) % 256, 2]), s) := by
  have hd := dispatch_out_of_range _ s _ _ _ hspan hlen hover
  simp [handleFrame, hdec, hd, encodeReplyPDU]

/-- Witness for C2: the spec's scenario — 10 holding registers, Read Holding
Registers(start = 5, count = 10) yields exception 0x02 on the open
connection with the store untouched. -/
theorem out_of_range_request_rejected_witness :
    decode [0, 1, 0, 0, 0, 6, 255, 3, 0, 5, 0, 10]
        = .ok (⟨1, 0, 6, 255⟩, [3, 0, 5, 0, 10]) ∧
    reqSpan (parsePDU [3, 0, 5, 0, 10]) = some (5, 10) ∧
    reqSpaceLen (parsePDU [3, 0, 5, 0, 10]) (init_modbus_mapping 10) = some 10 ∧
    10 < 5 + 10 ∧
    handleFrame [0, 1, 0, 0, 0, 6, 255, 3, 0, 5, 0, 10] (init_modbus_mapping 10)
      = (.connected, some (encodeFrame ⟨1, 0, 6, 255⟩ [131, 2]), init_modbus_mapping 10) :=
  ⟨rfl, by decide, by decide, by decide,
    out_of_range_request_rejected [0, 1, 0, 0, 0, 6, 255, 3, 0, 5, 0, 10]
      (init_modbus_mapping 10) ⟨1, 0, 6, 255⟩ [3, 0, 5, 0, 10] 5 10 10
      rfl (by decide) (by decide) (by decide)⟩

/-- Claim C3: a malformed frame — fewer than 7 bytes, nonzero protocol
identifier, or a length field disagreeing with the bytes actually present —
fails decoding with MalformedFrame, closes the connection, and sends no
reply bytes. -/
theorem malformed_frame_closes_connection (bytes : List Nat) (s : RegisterStore)
    (hbad : bytes.length < 7
      ∨ bytesToU16 (bytes.getD 2 0) (bytes.getD 3 0) ≠ 0
      ∨ bytesToU16 (bytes.getD 4 0) (bytes.getD 5 0) ≠ bytes.length - 6) :
    decode bytes = .error .malformedFrame ∧ handleFrame bytes s = (.closed, none, s) := by
  have hdec : decode bytes = .error .malformedFrame := by
    unfold decode
    rcases hbad with h1 | h2 | h3
    · rw [if_pos h1]
    · by_cases h1 : bytes.length < 7
      · rw [if_pos h1]
      · rw [if_neg h1, if_pos h2]
    · by_cases h1 : bytes.length < 7
      · rw [if_pos h1]
      · by_cases h2 : bytesToU16 (bytes.getD 2 0) (bytes.getD 3 0) ≠ 0
        · rw [if_neg h1, if_pos h2]
        · rw [if_neg h1, if_neg h2, if_pos h3]
  exact ⟨hdec, by simp [handleFrame, hdec]⟩

/-- Witness for C3: the spec's scenario — a frame with protocol
identifier 1 is rejected, the connection closes, no reply is sent. -/
theorem malformed_frame_closes_connection_witness :
    bytesToU16 (([0, 1, 0, 1, 0, 6, 1, 3, 0, 0, 0, 1] : List Nat).getD 2 0)
        (([0, 1, 0, 1, 0, 6, 1, 3, 0, 0, 0, 1] : List Nat).getD 3 0) ≠ 0 ∧
    decode [0, 1, 0, 1, 0, 6, 1, 3, 0, 0, 0, 1] = .error .malformedFrame ∧
    handleFrame [0, 1, 0, 1, 0, 6, 1, 3, 0, 0, 0, 1] (init_modbus_mapping 10)
      = (.closed, none, init_modbus_mapping 10) :=
  ⟨by decide,
    malformed_frame_closes_connection [0, 1, 0, 1, 0, 6, 1, 3, 0, 0, 0, 1]
      (init_modbus_mapping 10) (Or.inr (Or.inl (by decide)))⟩

/-- A default-0 lookup in a list of bytes is a byte. -/
theorem getD_lt_256 (l : List Nat) (i : Nat) (hl : ∀ b ∈ l, b < 256) :
    l.getD i 0 < 256 := by
  rcases Nat.lt_or_ge i l.length with h | h
  · rw [List.getD_eq_getElem l 0 h]
    exact hl _ (List.getElem_mem h)
  · rw [List.getD_eq_default l 0 h]
    omega

/-- A successfully decoded frame's transaction identifier is the big-endian
value of the first two received bytes. -/
theorem decode_ok_transactionId (bytes : List Nat) (h : MBAPHeader) (pduB : List Nat)
    (hd : decode bytes = .ok (h, pduB)) :
    h.transactionId = bytesToU16 (bytes.getD 0 0) (bytes.getD 1 0) := by
  unfold decode at hd
  split at hd
  · exact absurd hd (by simp)
  · split at hd
    · exact absurd hd (by simp)
    · split at hd
      · exact absurd hd (by simp)
      · simp only [Except.ok.injEq, Prod.mk.injEq] at hd
        rw [← hd.1]

/-- Claim C4: every reply the handler produces — normal response or
exception PDU — carries, in its first two bytes, exactly the transaction
identifier of the corresponding request, copied unchanged. -/
theorem reply_echoes_transaction_id (bytes : List Nat) (s : RegisterStore) (rep : List Nat)
    (hbytes : ∀ b ∈ bytes, b < 256)
    (hrep : (handleFrame bytes s).2.1 = some rep) :
    bytesToU16 (rep.getD 0 0) (rep.getD 1 0)
      = bytesToU16 (bytes.getD 0 0) (bytes.getD 1 0) := by
  rcases hd : decode bytes with e | hp
  · simp [handleFrame, hd] at hrep
  · obtain ⟨h, pduB⟩ := hp
    have htid := decode_ok_transactionId bytes h pduB hd
    have hrepval : rep
        = encodeFrame h
            (encodeReplyPDU (pduB[0]?.getD 0) (dispatch (parsePDU pduB) s).1) := by
      simp [handleFrame, hd] at hrep
      exact hrep.symm
    have hb0 : bytes.getD 0 0 < 256 := getD_lt_256 bytes 0 hbytes
    have hb1 : bytes.getD 1 0 < 256 := getD_lt_256 bytes 1 hbytes
    rw [hrepval]
    have e1 : (encodeFrame h
        (encodeReplyPDU (pduB[0]?.getD 0) (dispatch (parsePDU pduB) s).1)).getD 0 0
          = h.transactionId / 256 % 256 := by
      simp [encodeFrame, u16ToBytes]
    have e2 : (encodeFrame h
        (encodeReplyPDU (pduB[0]?.getD 0) (dispatch (parsePDU pduB) s).1)).getD 1 0
          = h.transactionId % 256 := by
      simp [encodeFrame, u16ToBytes]
    rw [e1, e2, htid]
    simp only [bytesToU16]
    omega

/-- Witness for C4: a Write Single Register request with transaction
identifier 0x1234 is answered with transaction identifier 0x1234. -/
theorem reply_echoes_transaction_id_witness :
    (∀ b ∈ ([18, 52, 0, 0, 0, 6, 1, 6, 0, 3, 18, 52] : List Nat), b < 256) ∧
    (handleFrame [18, 52, 0, 0, 0, 6, 1, 6, 0, 3, 18, 52] (init_modbus_mapping 10)).2.1
      = some [18, 52, 0, 0, 0, 6, 1, 6, 0, 3, 18, 52] ∧
    bytesToU16 (([18, 52, 0, 0, 0, 6, 1, 6, 0, 3, 18, 52] : List Nat).getD 0 0)
        (([18, 52, 0, 0, 0, 6, 1, 6, 0, 3, 18, 52] : List Nat).getD 1 0)
      = bytesToU16 (([18, 52, 0, 0, 0, 6, 1, 6, 0, 3, 18, 52] : List Nat).getD 0 0)
        (([18, 52, 0, 0, 0, 6, 1, 6, 0, 3, 18, 52] : List Nat).getD 1 0) :=
  ⟨by decide, by decide,
    reply_echoes_transaction_id [18, 52, 0, 0, 0, 6, 1, 6, 0, 3, 18, 52]
      (init_modbus_mapping 10) [18, 52, 0, 0, 0, 6, 1, 6, 0, 3, 18, 52]
      (by decide) (by decide)⟩

/-- A PDU whose function code is outside the supported set parses to
`unsupported`. -/
theorem parsePDU_unsupported (pduB : List Nat)
    (hfc : pduB.getD 0 0 ∉ ([1, 2, 3, 4, 5, 6, 15, 16] : List Nat)) :
    parsePDU pduB = .unsupported (pduB.getD 0 0) := by
  simp only [List.mem_cons, List.not_mem_nil, or_false, not_or] at hfc
  obtain ⟨h1, h2, h3, h4, h5, h6, h7, h8⟩ := hfc
  simp only [List.getD_eq_getElem?_getD] at h1 h2 h3 h4 h5 h6 h7 h8
  simp [parsePDU, h1, h2, h3, h4, h5, h6, h7, h8]

/-- Claim C5: every well-framed request whose function code is not in the
supported set {0x01, 0x02, 0x03, 0x04, 0x05, 0x06, 0x0F, 0x10} is answered
with an exception PDU carrying Illegal Function (0x01) on the still-open
connection. -/
theorem unsupported_function_code_rejected (bytes : List Nat) (s : RegisterStore)
    (h : MBAPHeader) (pduB : List Nat)
    (hdec : decode bytes = .ok (h, pduB))
    (hfc : pduB.getD 0 0 ∉ ([1, 2, 3, 4, 5, 6, 15, 16] : List Nat)) :
    handleFrame bytes s
      = (.connected, some (encodeFrame h [(pduB.getD 0 0 + 128) % 256, 1]), s) := by
  simp [handleFrame, hdec, parsePDU_unsupported pduB hfc, dispatch, encodeReplyPDU]

/-- Witness for C5: a request with unsupported function code 0x07 is
answered with exception PDU [0x87, 0x01] and the connection stays open. -/
theorem unsupported_function_code_rejected_witness :
    decode [0, 9, 0, 0, 0, 2, 17, 7] = .ok (⟨9, 0, 2, 17⟩, [7]) ∧
    ([7] : List Nat).getD 0 0 ∉ ([1, 2, 3, 4, 5, 6, 15, 16] : List Nat) ∧
    handleFrame [0, 9, 0, 0, 0, 2, 17, 7] (init_modbus_mapping 10)
      = (.connected, some (encodeFrame ⟨9, 0, 2, 17⟩ [135, 1]), init_modbus_mapping 10) :=
  ⟨rfl, by decide,
    unsupported_function_code_rejected [0, 9, 0, 0, 0, 2, 17, 7]
      (init_modbus_mapping 10) ⟨9, 0, 2, 17⟩ [7] rfl (by decide)⟩

/-- The per-client loop serves every received query until the connection
resets, then stops; later events of the schedule are never reached. -/
theorem clientLoop_until_reset (ds rest : List RecvResult)
    (hds : ∀ e ∈ ds, e.isReceived = true) :
    clientLoop (ds ++ .connReset :: rest) = List.replicate ds.length .handled := by
  induction ds with
  | nil => simp [clientLoop, handle_client_request]
  | cons d t ih =>
    have hd := hds d (by simp)
    cases d with
    | received q =>
      have hq : ¬ ((q.length : Int) = -1) := by omega
      simp [clientLoop, handle_client_request, hq, List.replicate_succ,
        ih (fun e he => hds e (by simp [he]))]
    | connReset => simp [RecvResult.isReceived] at hd
    | recvError => simp [RecvResult.isReceived] at hd

/-- Claim C6: a reset/closed-connection signal (which is also what a
zero-byte read produces) makes `handle_client_request` return -1 with only
an `[INFO]` message — not an `[ERROR]` — the per-client loop exits without
touching any later event of that connection, the session closes, and the
server goes on to serve subsequent connections: no error propagates
upward. -/
theorem conn_reset_ends_session_cleanly (ds rest : List RecvResult)
    (outcomes : List AcceptOutcome)
    (hds : ∀ e ∈ ds, e.isReceived = true) :
    handle_client_request .connReset = (-1, .info) ∧
    serverTrace (.accepted (ds ++ .connReset :: rest) :: outcomes)
      = .accept :: (List.replicate ds.length .handled ++ .closed :: serverTrace outcomes) := by
  refine ⟨rfl, ?_⟩
  simp [serverTrace, clientLoop_until_reset ds rest hds]

/-- Witness for C6: a client that sends one request then resets is served
one request and closed; the next accept outcome is still processed. -/
theorem conn_reset_ends_session_cleanly_witness :
    (∀ e ∈ ([.received [1, 2]] : List RecvResult), e.isReceived = true) ∧
    handle_client_request .connReset = (-1, .info) ∧
    serverTrace (.accepted ([.received [1, 2]] ++ .connReset :: [.recvError]) :: [.acceptError])
      = .accept :: (List.replicate 1 .handled ++ .closed :: serverTrace [.acceptError]) :=
  ⟨by decide,
    conn_reset_ends_session_cleanly [.received [1, 2]] [.recvError] [.acceptError] (by decide)⟩

/-- The per-client loop emits only `handled` events: it is a replicate of
its own length. -/
theorem clientLoop_replicate (es : List RecvResult) :
    clientLoop es = List.replicate (clientLoop es).length .handled := by
  induction es with
  | nil => simp [clientLoop]
  | cons e t ih =>
    by_cases h : (handle_client_request e).1 = -1
    · simp [clientLoop, h]
    · simp only [clientLoop, if_neg h, List.length_cons, List.replicate_succ,
        List.cons.injEq, true_and]
      exact ih

/-- Claim C7: the server's lifetime trace is serial — a sequence of failed
accepts and complete sessions, each an `accept` followed by that one
client's handled requests and its `closed`; a second client is never
accepted, let alone handled, before the current client's session is
complete. -/
theorem server_handles_clients_serially (outcomes : List AcceptOutcome) :
    SerialTrace (serverTrace outcomes) := by
  induction outcomes with
  | nil => exact .nil
  | cons o rest ih =>
    cases o with
    | acceptError => exact .fail ih
    | accepted es =>
      show SerialTrace (.accept :: (clientLoop es ++ .closed :: serverTrace rest))
      rw [clientLoop_replicate es]
      exact .session ih

/-- Claim C8: a failed accept is logged (`acceptFailed`) and the listener
simply proceeds to the next loop iteration: the remaining schedule is served
exactly as it would have been, so an accept failure never terminates the
listener or the process. -/
theorem accept_failure_is_retried (pre post : List AcceptOutcome) :
    serverTrace (pre ++ .acceptError :: post)
      = serverTrace pre ++ .acceptFailed :: serverTrace post := by
  induction pre with
  | nil => simp [serverTrace]
  | cons o t ih => cases o <;> simp [serverTrace, ih]

/-- Claim C9: if allocating the register store fails or binding/listening on
the server socket fails, `main` returns -1 — a non-zero status — and never
enters the serving loop. -/
theorem startup_failure_exits_nonzero (env : StartupEnv) (reg_count : Nat)
    (hfail : env.mappingOk = false ∨ env.listenOk = false) :
    main_startup env reg_count = .exitWith (-1) ∧ ((-1 : Int) ≠ 0) ∧
    ∀ st : RegisterStore, main_startup env reg_count ≠ .serving st := by
  obtain ⟨a, b, c⟩ := env
  have hexit : main_startup ⟨a, b, c⟩ reg_count = .exitWith (-1) := by
    rcases hfail with h | h
    · simp only at h
      subst h
      cases a <;> rfl
    · simp only at h
      subst h
      cases a <;> cases b <;> rfl
  refine ⟨hexit, by decide, fun st => ?_⟩
  rw [hexit]
  simp

/-- Witness for C9: with a working TCP context and listen socket but a
failed register-store allocation, `main` exits with -1. -/
theorem startup_failure_exits_nonzero_witness :
    ((⟨true, false, true⟩ : StartupEnv).mappingOk = false ∨
      (⟨true, false, true⟩ : StartupEnv).listenOk = false) ∧
    main_startup ⟨true, false, true⟩ 10 = .exitWith (-1) ∧ ((-1 : Int) ≠ 0) ∧
    ∀ st : RegisterStore, main_startup ⟨true, false, true⟩ 10 ≠ .serving st :=
  ⟨Or.inl rfl, startup_failure_exits_nonzero ⟨true, false, true⟩ 10 (Or.inl rfl)⟩

/-- Claim C10: `modbus_mapping_new(0, 0, reg_count, 0)` creates zero coils,
zero discrete inputs and zero input registers — only the holding-register
space has the configured size — so whatever the configuration, every
request addressing coils, discrete inputs or input registers (function
codes 0x01, 0x02, 0x04, 0x05, 0x0F) is answered with an exception and
leaves the store unchanged: it cannot succeed. -/
theorem empty_spaces_never_succeed (n : Nat) :
    (init_modbus_mapping n).coils = [] ∧
    (init_modbus_mapping n).discreteInputs = [] ∧
    (init_modbus_mapping n).inputRegs = [] ∧
    (init_modbus_mapping n).holdingRegs.length = n ∧
    ∀ r : Request, targetsEmptySpace r = true →
      (dispatch r (init_modbus_mapping n)).1.isException = true ∧
      (dispatch r (init_modbus_mapping n)).2 = init_modbus_mapping n := by
  refine ⟨rfl, rfl, rfl, by simp [init_modbus_mapping], ?_⟩
  intro r hr
  cases r with
  | readCoils a b =>
    by_cases hle : a + b ≤ (init_modbus_mapping n).coils.length
    · have hb : ¬ (1 ≤ b ∧ b ≤ 2000) := by
        simp [init_modbus_mapping] at hle
        omega
      simp [dispatch, hle, hb, Reply.isException]
    · simp [dispatch, hle, Reply.isException]
  | readDiscreteInputs a b =>
    by_cases hle : a + b ≤ (init_modbus_mapping n).discreteInputs.length
    · have hb : ¬ (1 ≤ b ∧ b ≤ 2000) := by
        simp [init_modbus_mapping] at hle
        omega
      simp [dispatch, hle, hb, Reply.isException]
    · simp [dispatch, hle, Reply.isException]
  | readInputRegisters a b =>
    by_cases hle : a + b ≤ (init_modbus_mapping n).inputRegs.length
    · have hb : ¬ (1 ≤ b ∧ b ≤ 125) := by
        simp [init_modbus_mapping] at hle
        omega
      simp [dispatch, hle, hb, Reply.isException]
    · simp [dispatch, hle, Reply.isException]
  | writeSingleCoil a v =>
    have hle : ¬ (a + 1 ≤ (init_modbus_mapping n).coils.length) := by
      simp [init_modbus_mapping]
    simp [dispatch, hle, Reply.isException]
  | writeMultipleCoils a b bc vals =>
    by_cases hle : a + b ≤ (init_modbus_mapping n).coils.length
    · have hb : ¬ (1 ≤ b ∧ b ≤ 1968) := by
        simp [init_modbus_mapping] at hle
        omega
      simp [dispatch, hle, hb, Reply.isException]
    · simp [dispatch, hle, Reply.isException]
  | readHoldingRegisters a b => simp [targetsEmptySpace] at hr
  | writeSingleRegister a v => simp [targetsEmptySpace] at hr
  | writeMultipleRegisters a b bc vals => simp [targetsEmptySpace] at hr
  | unsupported fc => simp [targetsEmptySpace] at hr

/-- Witness for C10: on the default configuration of 10 holding registers,
Read Coils(0, 5) yields an exception and leaves the store unchanged. -/
theorem empty_spaces_never_succeed_witness :
    targetsEmptySpace (.readCoils 0 5) = true ∧
    (dispatch (.readCoils 0 5) (init_modbus_mapping 10)).1.isException = true ∧
    (dispatch (.readCoils 0 5) (init_modbus_mapping 10)).2 = init_modbus_mapping 10 :=
  ⟨by decide, (empty_spaces_never_succeed 10).2.2.2.2 (.readCoils 0 5) (by decide)⟩
